import Mathlib

/-!
Verification of the Dolphin movie / cheat-search core against its
natural-language specification.

The embedding below is a shallow model of two translation units:
  * `Core/CheatSearch.cpp` (namespace `Cheats` here): the generic memory
    search engine, embedded generically over the scalar value type `α`
    (the C++ code is a template over the ten scalar kinds; all of its
    behaviour relevant here is parametric in the value type, with the
    concrete comparison operators supplied through a `ScalarOps`
    record, exactly as the C++ receives them through `std::function`
    validators built from the overloaded operators).
  * `Core/Movie.cpp` (namespace `Movie` here): the input
    recording/playback state machine, embedded as explicit state
    passing over a `MovieState` record holding the file-scope globals.

Machine integers are modelled as `Nat` with explicit `% 2^w` at the
places where C++ unsigned wraparound can occur.  External effects
(emulated memory reads, core run state, tick counter, file contents)
are passed in as explicit parameters.
-/

namespace Cheats

/-- Modelled from the spec: the header `Core/CheatSearch.h` is not part of
the sampled sources; per §3 a search memory range is "a start address and
length describing one contiguous window of the address space".  In the
repository the start is a `u32` and the length a `u64`; both are carried
as `Nat` here and reduced mod `2^32` / `2^64` where the arithmetic in
`NewSearch` can wrap. -/
structure MemoryRange where
  m_start : Nat
  m_length : Nat
deriving DecidableEq, Repr

/-- Value-state tag of a search result (virtual-translated read,
direct physical read, or inaccessible on re-check), as consumed by
`CheatSearch.cpp`. -/
inductive SearchResultValueState where
  | ValueFromVirtualMemory
  | ValueFromPhysicalMemory
  | AddressNotAccessible
deriving DecidableEq, Repr

/-- Modelled from the spec: one search result, "an address, a typed value
..., and a value state tag" (§3); the struct itself lives in the missing
header `Core/CheatSearch.h`, its three fields are exactly the ones the
sampled `CheatSearch.cpp` assigns (`m_value`, `m_value_state`,
`m_address`). -/
structure SearchResult (α : Type) where
  m_value : α
  m_value_state : SearchResultValueState
  m_address : Nat
deriving DecidableEq, Repr

/-- Modelled from the spec: §3 "once a result's state is 'not accessible,'
its value is undefined", and §4.3 defines the valid-value count as the
"results whose state is not 'AddressNotAccessible'"; the member function
lives in the missing header. -/
def SearchResult.IsValueValid {α : Type} (r : SearchResult α) : Bool :=
  r.m_value_state ≠ SearchResultValueState.AddressNotAccessible

instance {α : Type} [Inhabited α] : Inhabited (SearchResult α) :=
  ⟨{ m_value := default
     m_value_state := SearchResultValueState.AddressNotAccessible
     m_address := 0 }⟩

/-- Error codes returned by the search engine (`Cheats::SearchErrorCode`). -/
inductive SearchErrorCode where
  | Success
  | NoEmulationActive
  | InvalidParameters
  | VirtualAddressesCurrentlyNotAccessible
deriving DecidableEq, Repr

/-- Comparison operators of the search engine (`Cheats::CompareType`). -/
inductive CompareType where
  | Equal
  | NotEqual
  | Less
  | LessOrEqual
  | Greater
  | GreaterOrEqual
deriving DecidableEq, Repr

/-- Filter modes of the search engine (`Cheats::FilterType`). -/
inductive FilterType where
  | CompareAgainstSpecificValue
  | CompareAgainstLastValue
  | DoNotFilter
deriving DecidableEq, Repr

/-- Requested address space (`PowerPC::RequestedAddressSpace`). -/
inductive RequestedAddressSpace where
  | Effective
  | Physical
  | Virtual
deriving DecidableEq, Repr

/-- Emulated core run state (`Core::State`), as queried by the search
engine. Only `Running` and `Paused` allow a search. -/
inductive CoreState where
  | Uninitialized
  | Starting
  | Running
  | Paused
  | Stopping
deriving DecidableEq, Repr

/-- Environment a search runs against: the core's run state, the MSR data
address translation bit (`MSR.DR`), and the fallible typed read primitive
`TryReadValueFromEmulatedMemory` — reading at an address in a requested
address space either fails (`none`) or yields the value together with the
`translated` provenance flag of `PowerPC::TryReadResult`. -/
structure Env (α : Type) where
  coreState : CoreState
  msrDR : Bool
  read : Nat → RequestedAddressSpace → Option (α × Bool)

/-- Comparison operations of a scalar kind, as used by the validator
lambdas in `CheatSearch.cpp`.  For every C++ scalar type `x > y` is
`y < x`, `x >= y` is `y <= x` and `x != y` is `!(x == y)` (including the
IEEE754 kinds), so the three primitive operations suffice. -/
structure ScalarOps (α : Type) where
  beq : α → α → Bool
  lt : α → α → Bool
  le : α → α → Bool

/-- Byte width of the scalar kind `Nat`-valued model uses `2^64` as the
wraparound modulus of the `u64` loop arithmetic in `NewSearch`. -/
def u64Mod : Nat := 2 ^ 64

/-- Wraparound modulus of `u32` address arithmetic. -/
def u32Mod : Nat := 2 ^ 32

/-- Embedding of `Common::AlignUp` (`value + (size - value % size) % size`)
at `u32`, as called by `NewSearch` on the range start. -/
def alignUp32 (value size : Nat) : Nat :=
  (value + (size - value % size) % size) % u32Mod

/-- Loop-bound computation of the fresh sweep in `Cheats::NewSearch`:
`start_address`, `aligned_length = range.m_length - (start_address -
range.m_start)` and `length = aligned_length - (data_size - 1)`, with the
`u32` subtraction of addresses and the `u64` subtractions wrapping exactly
as in C++.  Returns the pair (start address, loop bound `length`). -/
def newSearchRangeBounds (range : MemoryRange) (data_size : Nat)
    (aligned : Bool) : Nat × Nat :=
  let start_address :=
    if aligned then alignUp32 range.m_start data_size else range.m_start % u32Mod
  let start_diff := (start_address + u32Mod - range.m_start % u32Mod) % u32Mod
  let aligned_length := (range.m_length % u64Mod + u64Mod - start_diff) % u64Mod
  let length := (aligned_length + u64Mod - (data_size - 1)) % u64Mod
  (start_address, length)

/-- Candidate addresses the fresh sweep of `Cheats::NewSearch` visits for
one memory range: `for (u64 i = 0; i < length; i += increment_per_loop)`
with `increment_per_loop = aligned ? data_size : 1` and the read address
the `u32` truncation of `start_address + i`. -/
def newSearchCandidates (range : MemoryRange) (data_size : Nat)
    (aligned : Bool) : List Nat :=
  let increment_per_loop := if aligned then data_size else 1
  let (start_address, length) := newSearchRangeBounds range data_size aligned
  (List.range ((length + increment_per_loop - 1) / increment_per_loop)).map
    (fun k => (start_address + k * increment_per_loop) % u32Mod)

/-- Body of the fresh sweep of `Cheats::NewSearch` over all memory ranges,
given a resolved read function: each failing read is skipped, each
succeeding read passing the validator is recorded with its translation
provenance. -/
def newSearchBody {α : Type} (read : Nat → Option (α × Bool))
    (validator : α → Bool) (memory_ranges : List MemoryRange)
    (data_size : Nat) (aligned : Bool) : List (SearchResult α) :=
  (memory_ranges.flatMap (fun range => newSearchCandidates range data_size aligned)).filterMap
    (fun addr =>
      match read addr with
      | none => none
      | some (v, translated) =>
        if validator v then
          some { m_value := v
                 m_value_state :=
                   if translated then SearchResultValueState.ValueFromVirtualMemory
                   else SearchResultValueState.ValueFromPhysicalMemory
                 m_address := addr }
        else none)

/-- Embedding of `Cheats::NewSearch`: the fresh-phase full sweep, with the
two precondition checks (core running/paused; virtual space requires
`MSR.DR`) performed before any scanning. -/
def NewSearch {α : Type} (env : Env α) (memory_ranges : List MemoryRange)
    (address_space : RequestedAddressSpace) (aligned : Bool)
    (data_size : Nat) (validator : α → Bool) :
    Except SearchErrorCode (List (SearchResult α)) :=
  if env.coreState ≠ CoreState.Running ∧ env.coreState ≠ CoreState.Paused then
    Except.error SearchErrorCode.NoEmulationActive
  else if address_space = RequestedAddressSpace.Virtual ∧ ¬env.msrDR then
    Except.error SearchErrorCode.VirtualAddressesCurrentlyNotAccessible
  else
    Except.ok (newSearchBody (fun a => env.read a address_space) validator
      memory_ranges data_size aligned)

/-- One iteration of the incremental re-check loop of `Cheats::NextSearch`:
a failing re-read yields the `AddressNotAccessible` marker (the result is
`emplace_back()`-value-initialized, so its value field is `T()`, modelled
by `default`); a succeeding re-read is kept when the previous state was
invalid or the validator passes. -/
def nextSearchStep {α : Type} [Inhabited α] (read : Nat → Option (α × Bool))
    (validator : α → α → Bool) (previous_result : SearchResult α) :
    Option (SearchResult α) :=
  match read previous_result.m_address with
  | none =>
    some { m_value := default
           m_value_state := SearchResultValueState.AddressNotAccessible
           m_address := previous_result.m_address }
  | some (v, translated) =>
    if ¬previous_result.IsValueValid ∨ validator v previous_result.m_value then
      some { m_value := v
             m_value_state :=
               if translated then SearchResultValueState.ValueFromVirtualMemory
               else SearchResultValueState.ValueFromPhysicalMemory
             m_address := previous_result.m_address }
    else none

/-- Embedding of `Cheats::NextSearch`: the incremental re-check of the
previous round's results, with the same two precondition checks as
`NewSearch`. -/
def NextSearch {α : Type} [Inhabited α] (env : Env α)
    (previous_results : List (SearchResult α))
    (address_space : RequestedAddressSpace)
    (validator : α → α → Bool) :
    Except SearchErrorCode (List (SearchResult α)) :=
  if env.coreState ≠ CoreState.Running ∧ env.coreState ≠ CoreState.Paused then
    Except.error SearchErrorCode.NoEmulationActive
  else if address_space = RequestedAddressSpace.Virtual ∧ ¬env.msrDR then
    Except.error SearchErrorCode.VirtualAddressesCurrentlyNotAccessible
  else
    Except.ok (previous_results.filterMap
      (nextSearchStep (fun a => env.read a address_space) validator))

/-- State of a `Cheats::CheatSearchSession<T>`: the immutable
range/space/alignment configuration and the mutable comparison state,
parsed literal, result list and first-search-done flag, exactly the
member variables of the class. -/
structure CheatSearchSession (α : Type) where
  m_memory_ranges : List MemoryRange
  m_address_space : RequestedAddressSpace
  m_aligned : Bool
  m_compare_type : CompareType
  m_filter_type : FilterType
  m_value : Option α
  m_search_results : List (SearchResult α)
  m_first_search_done : Bool
deriving DecidableEq, Repr

/-- Embedding of `MakeCompareFunctionForSpecificValue`: builds the
one-argument validator comparing the freshly read value against the
parsed literal `old_value` with the chosen operator. -/
def MakeCompareFunctionForSpecificValue {α : Type} (ops : ScalarOps α)
    (op : CompareType) (old_value : α) : α → Bool :=
  match op with
  | CompareType.Equal => fun new_value => ops.beq new_value old_value
  | CompareType.NotEqual => fun new_value => ¬ops.beq new_value old_value
  | CompareType.Less => fun new_value => ops.lt new_value old_value
  | CompareType.LessOrEqual => fun new_value => ops.le new_value old_value
  | CompareType.Greater => fun new_value => ops.lt old_value new_value
  | CompareType.GreaterOrEqual => fun new_value => ops.le old_value new_value

/-- Embedding of `MakeCompareFunctionForLastValue`: builds the
two-argument validator comparing the freshly read value against the
previous round's value with the chosen operator. -/
def MakeCompareFunctionForLastValue {α : Type} (ops : ScalarOps α)
    (op : CompareType) : α → α → Bool :=
  match op with
  | CompareType.Equal => fun new_value old_value => ops.beq new_value old_value
  | CompareType.NotEqual => fun new_value old_value => ¬ops.beq new_value old_value
  | CompareType.Less => fun new_value old_value => ops.lt new_value old_value
  | CompareType.LessOrEqual => fun new_value old_value => ops.le new_value old_value
  | CompareType.Greater => fun new_value old_value => ops.lt old_value new_value
  | CompareType.GreaterOrEqual => fun new_value old_value => ops.le old_value new_value

/-- Tail of `CheatSearchSession<T>::RunSearch`: on success the result list
is moved into the session and the first-search-done flag set; on error
the session is left untouched and the error code returned. -/
def applySearchOutcome {α : Type} (s : CheatSearchSession α)
    (result : Except SearchErrorCode (List (SearchResult α))) :
    SearchErrorCode × CheatSearchSession α :=
  match result with
  | Except.ok results =>
    (SearchErrorCode.Success,
      { s with m_search_results := results, m_first_search_done := true })
  | Except.error e => (e, s)

/-- Embedding of `Cheats::CheatSearchSession<T>::RunSearch`.  `ops` stands
for the scalar kind's comparison operators and `data_size` for
`sizeof(T)`; `env` is the emulated-machine environment the dispatched
`NewSearch`/`NextSearch` runs against.  Returns the error code together
with the session after the call. -/
def RunSearch {α : Type} [Inhabited α] (ops : ScalarOps α) (data_size : Nat)
    (env : Env α) (s : CheatSearchSession α) :
    SearchErrorCode × CheatSearchSession α :=
  match s.m_filter_type with
  | FilterType.CompareAgainstSpecificValue =>
    match s.m_value with
    | none => (SearchErrorCode.InvalidParameters, s)
    | some v =>
      let func := MakeCompareFunctionForSpecificValue ops s.m_compare_type v
      if s.m_first_search_done then
        applySearchOutcome s (NextSearch env s.m_search_results s.m_address_space
          (fun new_value _old_value => func new_value))
      else
        applySearchOutcome s (NewSearch env s.m_memory_ranges s.m_address_space
          s.m_aligned data_size func)
  | FilterType.CompareAgainstLastValue =>
    if ¬s.m_first_search_done then (SearchErrorCode.InvalidParameters, s)
    else
      applySearchOutcome s (NextSearch env s.m_search_results s.m_address_space
        (MakeCompareFunctionForLastValue ops s.m_compare_type))
  | FilterType.DoNotFilter =>
    if s.m_first_search_done then
      applySearchOutcome s (NextSearch env s.m_search_results s.m_address_space
        (fun _v1 _v2 => true))
    else
      applySearchOutcome s (NewSearch env s.m_memory_ranges s.m_address_space
        s.m_aligned data_size (fun _v => true))

/-- Embedding of `Cheats::CheatSearchSession<T>::ClonePartial`: a new
session is constructed from the same range/space/alignment configuration,
the selected results (`results[idx]` for each requested index, in the
given order) become its result list, and the comparison state, literal
and first-search-done flag are copied over.  The C++ indexing is
unchecked; out-of-range indices (undefined behaviour there) are modelled
with `getD` and excluded by the hypotheses of the theorems below. -/
def ClonePartial {α : Type} [Inhabited α] (s : CheatSearchSession α)
    (result_indices : List Nat) : CheatSearchSession α :=
  { m_memory_ranges := s.m_memory_ranges
    m_address_space := s.m_address_space
    m_aligned := s.m_aligned
    m_compare_type := s.m_compare_type
    m_filter_type := s.m_filter_type
    m_value := s.m_value
    m_search_results := result_indices.map (fun idx => s.m_search_results.getD idx default)
    m_first_search_done := s.m_first_search_done }

/-- Typed literal of a search value (`Cheats::SearchValue`): a variant
over the ten scalar kinds.  Unsigned kinds carry their numeric value,
signed kinds carry a mathematical integer, and the floating-point kinds
carry the raw IEEE754 bit pattern of the `float`/`double` (the only
aspect of them `GetValueAsByteVector` observes, through
`Common::BitCast`). -/
inductive SearchValue where
  | U8 (v : Nat)
  | U16 (v : Nat)
  | U32 (v : Nat)
  | U64 (v : Nat)
  | S8 (v : Int)
  | S16 (v : Int)
  | S32 (v : Int)
  | S64 (v : Int)
  | F32 (bits : Nat)
  | F64 (bits : Nat)
deriving DecidableEq, Repr

/-- Embedding of the helper `ToByteVector`: the `sizeof(T)` bytes of a
trivially copyable value in host memory order.  Dolphin runs on
little-endian hosts, so byte `i` of an unsigned integer value `v` is
`v / 256^i % 256`. -/
def ToByteVector (width v : Nat) : List Nat :=
  (List.range width).map (fun i => v / 256 ^ i % 256)

/-- Embedding of `Common::swap16` on a little-endian host: swaps the two
bytes of a `u16`. -/
def swap16 (v : Nat) : Nat :=
  v / 2 ^ 8 % 2 ^ 8 + v % 2 ^ 8 * 2 ^ 8

/-- Embedding of `Common::swap32` on a little-endian host: reverses the
four bytes of a `u32`. -/
def swap32 (v : Nat) : Nat :=
  v / 2 ^ 24 % 2 ^ 8 + v / 2 ^ 16 % 2 ^ 8 * 2 ^ 8 + v / 2 ^ 8 % 2 ^ 8 * 2 ^ 16 +
    v % 2 ^ 8 * 2 ^ 24

/-- Embedding of `Common::swap64` on a little-endian host: reverses the
eight bytes of a `u64`. -/
def swap64 (v : Nat) : Nat :=
  v / 2 ^ 56 % 2 ^ 8 + v / 2 ^ 48 % 2 ^ 8 * 2 ^ 8 + v / 2 ^ 40 % 2 ^ 8 * 2 ^ 16 +
    v / 2 ^ 32 % 2 ^ 8 * 2 ^ 24 + v / 2 ^ 24 % 2 ^ 8 * 2 ^ 32 +
    v / 2 ^ 16 % 2 ^ 8 * 2 ^ 40 + v / 2 ^ 8 % 2 ^ 8 * 2 ^ 48 + v % 2 ^ 8 * 2 ^ 56

/-- Embedding of `Common::BitCast<uN>` applied to a signed integer: the
two's-complement bit pattern of the value at the given bit width. -/
def bitCastUnsigned (width : Nat) (v : Int) : Nat :=
  (v % (2 ^ width : Nat)).toNat

/-- Embedding of `Cheats::GetValueAsByteVector`: serializes a typed
literal by byte-swapping its (bit-cast) unsigned representation to big
endian and taking the resulting bytes in host memory order, exactly as
the `switch` in `CheatSearch.cpp` does per kind. -/
def GetValueAsByteVector : SearchValue → List Nat
  | SearchValue.U8 v => [v]
  | SearchValue.U16 v => ToByteVector 2 (swap16 v)
  | SearchValue.U32 v => ToByteVector 4 (swap32 v)
  | SearchValue.U64 v => ToByteVector 8 (swap64 v)
  | SearchValue.S8 v => [bitCastUnsigned 8 v]
  | SearchValue.S16 v => ToByteVector 2 (swap16 (bitCastUnsigned 16 v))
  | SearchValue.S32 v => ToByteVector 4 (swap32 (bitCastUnsigned 32 v))
  | SearchValue.S64 v => ToByteVector 8 (swap64 (bitCastUnsigned 64 v))
  | SearchValue.F32 bits => ToByteVector 4 (swap32 bits)
  | SearchValue.F64 bits => ToByteVector 8 (swap64 bits)

/-- Big-endian byte encoding of an unsigned value at a given byte width,
written independently of the code above as the specification-side
reference for claim C6: byte `i` (from the most significant end) is
`v / 256^(width-1-i) % 256`. -/
def bigEndianBytes (width v : Nat) : List Nat :=
  (List.range width).map (fun i => v / 256 ^ (width - 1 - i) % 256)

end Cheats

namespace Movie

/-- Play mode of the movie engine (`Movie::PlayMode`). -/
inductive PlayMode where
  | MODE_NONE
  | MODE_RECORDING
  | MODE_PLAYING
deriving DecidableEq, Repr

/-- Per-port controller type assignment (`Movie::ControllerType`). -/
inductive ControllerType where
  | None
  | GC
  | GBA
deriving DecidableEq, Repr

/-- State of the movie engine: the file-scope globals of `Movie.cpp` that
the recorded/verified operations touch.  The input stream `s_temp_input`
is the flat byte buffer, `s_currentByte` the rolling cursor into it.
Globals not modelled here (display strings, config-layer snapshot fields
such as `s_author`/`s_MD5`/DSP hashes, the `tmpHeader` scratch buffer and
the manip-function hooks) are written only by code paths outside the
claims under verification. -/
structure MovieState where
  s_bReadOnly : Bool
  s_rerecords : Nat
  s_playMode : PlayMode
  s_controllers : List ControllerType
  s_wiimotes : List Bool
  s_padState : List Nat
  s_temp_input : List Nat
  s_currentByte : Nat
  s_currentFrame : Nat
  s_totalFrames : Nat
  s_currentLagCount : Nat
  s_totalLagCount : Nat
  s_currentInputCount : Nat
  s_totalInputCount : Nat
  s_totalTickCount : Nat
  s_tickCountAtLastInput : Nat
  s_recordingStartTime : Nat
  s_bDiscChange : Bool
  s_bReset : Bool
  s_bRecordingFromSaveState : Bool
  s_bPolled : Bool
deriving DecidableEq, Repr

/-- Embedding of `Movie::IsRecordingInput`. -/
def IsRecordingInput (s : MovieState) : Bool :=
  s.s_playMode = PlayMode.MODE_RECORDING

/-- Embedding of `Movie::IsPlayingInput`. -/
def IsPlayingInput (s : MovieState) : Bool :=
  s.s_playMode = PlayMode.MODE_PLAYING

/-- Embedding of `Movie::IsMovieActive`. -/
def IsMovieActive (s : MovieState) : Bool :=
  s.s_playMode ≠ PlayMode.MODE_NONE

/-- Embedding of `Movie::IsRecordingInputFromSaveState`. -/
def IsRecordingInputFromSaveState (s : MovieState) : Bool :=
  s.s_bRecordingFromSaveState

/-- Embedding of `Movie::IsUsingPad`: the port's controller type is not
`None`. -/
def IsUsingPad (s : MovieState) (controller : Nat) : Bool :=
  s.s_controllers.getD controller ControllerType.None ≠ ControllerType.None

/-- Embedding of `Movie::IsUsingWiimote`. -/
def IsUsingWiimote (s : MovieState) (wiimote : Nat) : Bool :=
  s.s_wiimotes.getD wiimote false

/-- Embedding of `Movie::IsMovieHeader`: the first four header bytes must
be the magic signature `'D' 'T' 'M' 0x1A`. -/
def IsMovieHeader (magic : List Nat) : Bool :=
  magic.getD 0 0 == 0x44 && magic.getD 1 0 == 0x54 && magic.getD 2 0 == 0x4D &&
    magic.getD 3 0 == 0x1A

/-- Header fields of the DTM recording container (`DTMHeader`) consumed
by the modelled operations; the config-snapshot, author and checksum
fields feed only unmodelled globals. -/
structure DtmHeader where
  filetype : List Nat
  controllers : Nat
  GBAControllers : Nat
  bFromSaveState : Bool
  frameCount : Nat
  lagCount : Nat
  inputCount : Nat
  numRerecords : Nat
  recordingStartTime : Nat
  tickCount : Nat
deriving DecidableEq, Repr

/-- A DTM file on disk as the movie engine reads it: the fixed 256-byte
header (`none` when the file is too short for `ReadArray` to fill it) and
the remaining flat byte stream (file size minus 256). -/
structure DtmFile where
  headerQ : Option DtmHeader
  stream : List Nat
deriving DecidableEq, Repr

/-- Effect of `Movie::ReadHeader` on the modelled state: the
per-port controller types and Wiimote flags are re-derived from the
header's enable bitmasks, the recording start time copied, and the
rerecord count raised to the header's count when larger.  (The
config-snapshot block it also loads touches only unmodelled globals.) -/
def ReadHeader (h : DtmHeader) (s : MovieState) : MovieState :=
  { s with
    s_controllers := (List.range 4).map (fun i =>
      if h.GBAControllers.testBit i then ControllerType.GBA
      else if h.controllers.testBit i then ControllerType.GC
      else ControllerType.None)
    s_wiimotes := (List.range 4).map (fun i => h.controllers.testBit (i + 4))
    s_recordingStartTime := h.recordingStartTime
    s_rerecords := if s.s_rerecords < h.numRerecords then h.numRerecords else s.s_rerecords }

/-- Embedding of `Movie::EndPlayInput`: with `cont` the mode is switched
to Recording; otherwise, when a movie is active, the rerecord count and
byte cursor are zeroed, the mode set to None and the from-save-state flag
cleared, deliberately leaving the total-frame/input/tick bookkeeping and
the input stream in place. -/
def EndPlayInput (cont : Bool) (s : MovieState) : MovieState :=
  if cont then
    { s with s_playMode := PlayMode.MODE_RECORDING }
  else if s.s_playMode ≠ PlayMode.MODE_NONE then
    { s with
      s_rerecords := 0
      s_currentByte := 0
      s_playMode := PlayMode.MODE_NONE
      s_bRecordingFromSaveState := false }
  else s

/-- Embedding of `Movie::CheckInputEnd` with the current emulated tick
count passed explicitly: playback ends (via `EndPlayInput(!s_bReadOnly)`)
when the cursor has reached the end of the buffered stream, or when the
tick count exceeds the recorded total and the movie did not begin from a
save state. -/
def CheckInputEnd (ticks : Nat) (s : MovieState) : MovieState :=
  if s.s_currentByte ≥ s.s_temp_input.length ∨
      (ticks > s.s_totalTickCount ∧ ¬IsRecordingInputFromSaveState s) then
    EndPlayInput (!s.s_bReadOnly) s
  else s

/-- Embedding of `Movie::LoadInput` (state effect only; the alerts it
raises are user-facing messages).  The file parameter is the re-opened
movie file.  Mirrors the source: header magic re-validation, rerecord
increment in read-write mode, header-driven reconfiguration, either a
full stream reload (read-write or empty buffer) or the byte-exact prefix
comparison with the Wiimote-stream in-place patch, and the final mode
switch or termination. -/
def LoadInput (file : DtmFile) (s : MovieState) : MovieState :=
  match file.headerQ with
  | none => EndPlayInput false s
  | some h =>
    if ¬IsMovieHeader h.filetype then EndPlayInput false s
    else
      let s1 := ReadHeader h s
      let s2 := if ¬s1.s_bReadOnly then { s1 with s_rerecords := s1.s_rerecords + 1 } else s1
      let totalSavedBytes := file.stream.length
      let afterEnd1 : Bool := s2.s_currentByte > totalSavedBytes
      let step :=
        if ¬s2.s_bReadOnly ∨ s2.s_temp_input.isEmpty then
          ({ s2 with
              s_totalFrames := h.frameCount
              s_totalLagCount := h.lagCount
              s_totalInputCount := h.inputCount
              s_totalTickCount := h.tickCount
              s_tickCountAtLastInput := h.tickCount
              s_temp_input := file.stream }, afterEnd1)
        else if s2.s_currentByte > 0 then
          if s2.s_currentByte > totalSavedBytes then (s2, afterEnd1)
          else if s2.s_currentByte > s2.s_temp_input.length then (s2, true)
          else
            let movInput := file.stream.take s2.s_currentByte
            if movInput ≠ s2.s_temp_input.take s2.s_currentByte then
              if IsUsingWiimote s2 0 then
                ({ s2 with
                    s_temp_input := movInput ++ s2.s_temp_input.drop s2.s_currentByte },
                  afterEnd1)
              else (s2, afterEnd1)
            else (s2, afterEnd1)
        else (s2, afterEnd1)
      let s3 := step.1
      if ¬step.2 then
        if s3.s_bReadOnly then { s3 with s_playMode := PlayMode.MODE_PLAYING }
        else { s3 with s_playMode := PlayMode.MODE_RECORDING }
      else EndPlayInput false s3

/-- Embedding of `Movie::PlayInput`: rejected with no state change when a
movie is already active, when the header cannot be read, or when the
magic signature does not match; on success the header is consumed, total
counters loaded, current counters zeroed, the mode set to Playing, the
stream buffered and the cursor reset, and for a from-save-state recording
(with a savestate out-parameter supplied) `LoadInput` is run on the same
file. -/
def PlayInput (file : DtmFile) (savestate_path_provided : Bool)
    (s : MovieState) : Bool × MovieState :=
  if s.s_playMode ≠ PlayMode.MODE_NONE then (false, s)
  else
    match file.headerQ with
    | none => (false, s)
    | some h =>
      if ¬IsMovieHeader h.filetype then (false, s)
      else
        let s1 := ReadHeader h s
        let s2 := { s1 with
          s_totalFrames := h.frameCount
          s_totalLagCount := h.lagCount
          s_totalInputCount := h.inputCount
          s_totalTickCount := h.tickCount
          s_currentFrame := 0
          s_currentLagCount := 0
          s_currentInputCount := 0
          s_playMode := PlayMode.MODE_PLAYING
          s_temp_input := file.stream
          s_currentByte := 0 }
        if h.bFromSaveState ∧ savestate_path_provided then
          (true, LoadInput file { s2 with s_bRecordingFromSaveState := true })
        else (true, s2)

/-- Embedding of `std::vector<u8>::resize`: truncates to `n` elements or
zero-extends up to `n`. -/
def listResize (l : List Nat) (n : Nat) : List Nat :=
  l.take n ++ List.replicate (n - l.length) 0

/-- Embedding of a `memcpy` of `data` into the buffer `l` at offset
`pos`. -/
def writeBytesAt (l : List Nat) (pos : Nat) (data : List Nat) : List Nat :=
  l.take pos ++ data ++ l.drop (pos + data.length)

/-- Effect of `Movie::CheckPadStatus` on the modelled state: the current
pad snapshot (serialized as its `sizeof(ControllerState)` bytes,
supplied here already serialized) becomes `s_padState`, consuming the
pending disc-change and reset flags. -/
def CheckPadStatus (padBytes : List Nat) (s : MovieState) : MovieState :=
  { s with s_padState := padBytes, s_bDiscChange := false, s_bReset := false }

/-- Embedding of `Movie::InputUpdate` with the current emulated tick
count passed explicitly: the input counter advances and, while
recording, the total input count mirrors it and the elapsed ticks since
the previous input accumulate into the total tick count (`u64`
arithmetic). -/
def InputUpdate (ticks : Nat) (s : MovieState) : MovieState :=
  let s1 := { s with s_currentInputCount := s.s_currentInputCount + 1 }
  if IsRecordingInput s1 then
    { s1 with
      s_totalInputCount := s1.s_currentInputCount
      s_totalTickCount :=
        (s1.s_totalTickCount +
          (ticks + Cheats.u64Mod - s1.s_tickCountAtLastInput % Cheats.u64Mod) %
            Cheats.u64Mod) % Cheats.u64Mod
      s_tickCountAtLastInput := ticks }
  else s1

/-- Embedding of `Movie::RecordInput`: while recording with the given
controller enabled, the pad snapshot is checked into `s_padState`, the
input buffer resized to exactly cursor + snapshot size, the snapshot
copied in at the cursor, and the cursor advanced past it. -/
def RecordInput (controllerID : Nat) (padBytes : List Nat)
    (s : MovieState) : MovieState :=
  if ¬(IsRecordingInput s ∧ IsUsingPad s controllerID) then s
  else
    let s1 := CheckPadStatus padBytes s
    let buf := listResize s1.s_temp_input (s1.s_currentByte + padBytes.length)
    let buf := writeBytesAt buf s1.s_currentByte padBytes
    { s1 with
      s_temp_input := buf
      s_currentByte := s1.s_currentByte + padBytes.length }

/-- Embedding of `Movie::RecordWiimote`: while recording with the given
Wiimote enabled, the input counter is updated, the buffer resized to
exactly cursor + report size + 1, one length byte then the report bytes
written at the cursor, and the cursor advanced past both. -/
def RecordWiimote (wiimote : Nat) (data : List Nat) (ticks : Nat)
    (s : MovieState) : MovieState :=
  if ¬(IsRecordingInput s ∧ IsUsingWiimote s wiimote) then s
  else
    let s1 := InputUpdate ticks s
    let buf := listResize s1.s_temp_input (s1.s_currentByte + data.length + 1)
    let buf := writeBytesAt buf s1.s_currentByte [data.length]
    let pos := s1.s_currentByte + 1
    let buf := writeBytesAt buf pos data
    { s1 with
      s_temp_input := buf
      s_currentByte := pos + data.length }

end Movie

namespace Cheats

/-- Comparison operations of the `Nat`-valued scalar kind, used to
instantiate the generic session at concrete inputs. -/
def opsNat : ScalarOps Nat :=
  { beq := fun a b => a == b
    lt := fun a b => decide (a < b)
    le := fun a b => decide (a ≤ b) }

theorem applySearchOutcome_of_ne_success {α : Type} (s : CheatSearchSession α)
    (r : Except SearchErrorCode (List (SearchResult α)))
    (h : (applySearchOutcome s r).1 ≠ SearchErrorCode.Success) :
    (applySearchOutcome s r).2 = s := by
  cases r with
  | ok res => exact absurd rfl h
  | error e => rfl

theorem applySearchOutcome_success_iff {α : Type} (s : CheatSearchSession α)
    (r : Except SearchErrorCode (List (SearchResult α)))
    (hne : ∀ e, r = Except.error e → e ≠ SearchErrorCode.Success)
    (h : (applySearchOutcome s r).1 = SearchErrorCode.Success) :
    r = Except.ok (applySearchOutcome s r).2.m_search_results := by
  cases r with
  | ok res => rfl
  | error e => exact absurd (by simpa [applySearchOutcome] using h) (hne e rfl)

theorem nextSearchStep_address {α : Type} [Inhabited α]
    (read : Nat → Option (α × Bool)) (validator : α → α → Bool)
    (pr : SearchResult α) (r : SearchResult α)
    (h : nextSearchStep read validator pr = some r) :
    r.m_address = pr.m_address := by
  unfold nextSearchStep at h
  split at h
  · injection h with h2
    rw [← h2]
  · split at h
    · injection h with h2
      rw [← h2]
    · exact absurd h (by simp)

theorem filterMap_map_sublist {β γ δ : Type _} (f : β → Option γ) (g : β → δ)
    (hmap : γ → δ) (l : List β) (h : ∀ b c, f b = some c → hmap c = g b) :
    ((l.filterMap f).map hmap).Sublist (l.map g) := by
  induction l with
  | nil => simp
  | cons b l ih =>
    cases hfb : f b with
    | none =>
      simpa [List.filterMap_cons, hfb] using ih.cons (g b)
    | some c =>
      simpa [List.filterMap_cons, hfb, h b c hfb] using ih.cons₂ (g b)

theorem nextSearch_ok_results {α : Type} [Inhabited α] (env : Env α)
    (previous_results : List (SearchResult α))
    (address_space : RequestedAddressSpace) (validator : α → α → Bool)
    (results : List (SearchResult α))
    (h : NextSearch env previous_results address_space validator = Except.ok results) :
    results = previous_results.filterMap
      (nextSearchStep (fun a => env.read a address_space) validator) := by
  unfold NextSearch at h
  split at h
  · exact absurd h (by simp)
  · split at h
    · exact absurd h (by simp)
    · exact (Except.ok.inj h).symm

theorem nextSearch_error_ne_success {α : Type} [Inhabited α] (env : Env α)
    (previous_results : List (SearchResult α))
    (address_space : RequestedAddressSpace) (validator : α → α → Bool)
    (e : SearchErrorCode)
    (h : NextSearch env previous_results address_space validator = Except.error e) :
    e ≠ SearchErrorCode.Success := by
  unfold NextSearch at h
  split at h
  · cases Except.error.inj h; simp
  · split at h
    · cases Except.error.inj h; simp
    · exact absurd h (by simp)

theorem newSearch_error_ne_success {α : Type} (env : Env α)
    (memory_ranges : List MemoryRange) (address_space : RequestedAddressSpace)
    (aligned : Bool) (data_size : Nat) (validator : α → Bool) (e : SearchErrorCode)
    (h : NewSearch env memory_ranges address_space aligned data_size validator =
      Except.error e) :
    e ≠ SearchErrorCode.Success := by
  unfold NewSearch at h
  split at h
  · cases Except.error.inj h; simp
  · split at h
    · cases Except.error.inj h; simp
    · exact absurd h (by simp)

theorem runSearch_incremental_shape {α : Type} [Inhabited α] (ops : ScalarOps α)
    (data_size : Nat) (env : Env α) (s : CheatSearchSession α)
    (hdone : s.m_first_search_done = true)
    (hsucc : (RunSearch ops data_size env s).1 = SearchErrorCode.Success) :
    ∃ validator : α → α → Bool,
      NextSearch env s.m_search_results s.m_address_space validator =
        Except.ok (RunSearch ops data_size env s).2.m_search_results := by
  rcases hft : s.m_filter_type with _ | _ | _
  · rcases hv : s.m_value with _ | v
    · simp [RunSearch, hft, hv] at hsucc
    · refine ⟨fun new_value _old_value =>
        MakeCompareFunctionForSpecificValue ops s.m_compare_type v new_value, ?_⟩
      simp only [RunSearch, hft, hv, hdone, if_true] at hsucc ⊢
      exact applySearchOutcome_success_iff _ _
        (fun e he => nextSearch_error_ne_success _ _ _ _ e he) hsucc
  · refine ⟨MakeCompareFunctionForLastValue ops s.m_compare_type, ?_⟩
    simp only [RunSearch, hft, hdone, Bool.not_true, Bool.false_eq_true, if_false] at hsucc ⊢
    exact applySearchOutcome_success_iff _ _
      (fun e he => nextSearch_error_ne_success _ _ _ _ e he) hsucc
  · refine ⟨fun _v1 _v2 => true, ?_⟩
    simp only [RunSearch, hft, hdone, if_true] at hsucc ⊢
    exact applySearchOutcome_success_iff _ _
      (fun e he => nextSearch_error_ne_success _ _ _ _ e he) hsucc

/-- C1 — evaluation of the code at the failing input.  The spec claims the
fresh sweep iterates candidate offsets only up to (range length −
sizeof(T) + 1) so that no read overruns the range, and that a range
shorter than sizeof(T) yields zero results.  In the code, for a memory
range of length 2 scanned as a 4-byte kind, the `u64` computation
`length = aligned_length - (data_size - 1)` underflows to `2^64 - 1`, so
the loop bound is not zero and the sweep visits candidate addresses far
beyond the range end — here `0x80001000`, which is 4094 bytes past the
end of the 2-byte range at `0x80000000`. -/
theorem newSearch_short_range_loop_bound_underflows :
    (newSearchRangeBounds { m_start := 0x80000000, m_length := 2 } 4 false).2 =
      2 ^ 64 - 1 ∧
    0x80001000 ∈ newSearchCandidates { m_start := 0x80000000, m_length := 2 } 4 false := by
  constructor
  · rfl
  · unfold newSearchCandidates newSearchRangeBounds alignUp32 u32Mod u64Mod
    refine List.mem_map.mpr ⟨0x1000, List.mem_range.mpr (by norm_num), by norm_num⟩

/-- C4 — whenever `RunSearch` returns an error code (`NoEmulationActive`,
`VirtualAddressesCurrentlyNotAccessible` or `InvalidParameters`), the
session is left completely unchanged: in particular its result list and
its first-search-done flag keep their previous values. -/
theorem runSearch_error_preserves_session {α : Type} [Inhabited α]
    (ops : ScalarOps α) (data_size : Nat) (env : Env α)
    (s : CheatSearchSession α)
    (herr : (RunSearch ops data_size env s).1 ≠ SearchErrorCode.Success) :
    (RunSearch ops data_size env s).2 = s := by
  rcases hft : s.m_filter_type with _ | _ | _
  · rcases hv : s.m_value with _ | v
    · simp [RunSearch, hft, hv]
    · simp only [RunSearch, hft, hv] at herr ⊢
      by_cases hd : s.m_first_search_done = true <;>
        simp only [hd, if_true, Bool.false_eq_true, if_false] at herr ⊢ <;>
        exact applySearchOutcome_of_ne_success _ _ herr
  · simp only [RunSearch, hft] at herr ⊢
    by_cases hd : s.m_first_search_done = true <;>
      simp only [hd, Bool.not_true, Bool.not_false, Bool.false_eq_true, if_true,
        if_false] at herr ⊢
    · exact applySearchOutcome_of_ne_success _ _ herr
    · rfl
  · simp only [RunSearch, hft] at herr ⊢
    by_cases hd : s.m_first_search_done = true <;>
      simp only [hd, if_true, Bool.false_eq_true, if_false] at herr ⊢ <;>
      exact applySearchOutcome_of_ne_success _ _ herr

/-- Witness for C4: with the emulated core stopped, `RunSearch` on a
fresh unfiltered session returns `NoEmulationActive` and the session is
unchanged. -/
theorem runSearch_error_preserves_session_witness :
    (RunSearch opsNat 1
        { coreState := CoreState.Stopping, msrDR := true, read := fun _ _ => none }
        { m_memory_ranges := [{ m_start := 0, m_length := 16 }]
          m_address_space := RequestedAddressSpace.Physical
          m_aligned := false
          m_compare_type := CompareType.Equal
          m_filter_type := FilterType.DoNotFilter
          m_value := none
          m_search_results := []
          m_first_search_done := false }).1 ≠ SearchErrorCode.Success ∧
    (RunSearch opsNat 1
        { coreState := CoreState.Stopping, msrDR := true, read := fun _ _ => none }
        { m_memory_ranges := [{ m_start := 0, m_length := 16 }]
          m_address_space := RequestedAddressSpace.Physical
          m_aligned := false
          m_compare_type := CompareType.Equal
          m_filter_type := FilterType.DoNotFilter
          m_value := none
          m_search_results := []
          m_first_search_done := false }).2 =
      { m_memory_ranges := [{ m_start := 0, m_length := 16 }]
        m_address_space := RequestedAddressSpace.Physical
        m_aligned := false
        m_compare_type := CompareType.Equal
        m_filter_type := FilterType.DoNotFilter
        m_value := none
        m_search_results := []
        m_first_search_done := false } :=
  ⟨by decide, runSearch_error_preserves_session _ _ _ _ (by decide)⟩

/-- Session used as the concrete counterexample input of C2: an
incremental round in `CompareAgainstSpecificValue` mode whose single
previous result holds a valid value. -/
def c2Session : CheatSearchSession Nat :=
  { m_memory_ranges := [{ m_start := 0, m_length := 16 }]
    m_address_space := RequestedAddressSpace.Physical
    m_aligned := false
    m_compare_type := CompareType.Equal
    m_filter_type := FilterType.CompareAgainstSpecificValue
    m_value := some 5
    m_search_results := [{ m_value := 5
                           m_value_state := SearchResultValueState.ValueFromPhysicalMemory
                           m_address := 0 }]
    m_first_search_done := true }

/-- Environment used by the C2 counterexample: core running, but every
memory read fails. -/
def c2Env : Env Nat :=
  { coreState := CoreState.Running, msrDR := true, read := fun _ _ => none }

/-- C2 counterexample — the claim says an address whose re-read fails is
kept (as an `AddressNotAccessible` marker) only in `DoNotFilter` mode or
when the previous value was already invalid, and is dropped in the other
filtering modes.  On the code, in `CompareAgainstSpecificValue` mode with
a previously valid value and a failing re-read, the marker is kept: the
incremental round succeeds and the new result list still contains the
address as a marker instead of dropping it. -/
theorem runSearch_inaccessible_kept_despite_filter_mode :
    c2Session.m_filter_type = FilterType.CompareAgainstSpecificValue ∧
    (c2Session.m_search_results.getD 0 default).IsValueValid = true ∧
    c2Env.read 0 RequestedAddressSpace.Physical = none ∧
    (RunSearch opsNat 1 c2Env c2Session).1 = SearchErrorCode.Success ∧
    (RunSearch opsNat 1 c2Env c2Session).2.m_search_results =
      [{ m_value := 0
         m_value_state := SearchResultValueState.AddressNotAccessible
         m_address := 0 }] := by
  decide

/-- C2 as amended — in an incremental `RunSearch` that succeeds, every
previously discovered address whose re-read fails is replaced by an
`AddressNotAccessible` marker that is kept in the new result set in
every filter mode (the DoNotFilter/previously-invalid distinction of the
original claim governs successful re-reads, not failing ones). -/
theorem runSearch_inaccessible_becomes_kept_marker {α : Type} [Inhabited α]
    (ops : ScalarOps α) (data_size : Nat) (env : Env α)
    (s : CheatSearchSession α) (hdone : s.m_first_search_done = true)
    (hsucc : (RunSearch ops data_size env s).1 = SearchErrorCode.Success)
    (pr : SearchResult α) (hpr : pr ∈ s.m_search_results)
    (hfail : env.read pr.m_address s.m_address_space = none) :
    ({ m_value := default
       m_value_state := SearchResultValueState.AddressNotAccessible
       m_address := pr.m_address } : SearchResult α) ∈
      (RunSearch ops data_size env s).2.m_search_results := by
  obtain ⟨validator, hok⟩ :=
    runSearch_incremental_shape ops data_size env s hdone hsucc
  rw [nextSearch_ok_results _ _ _ _ _ hok]
  refine List.mem_filterMap.mpr ⟨pr, hpr, ?_⟩
  unfold nextSearchStep
  simp only [hfail]

/-- Witness for C2's amended theorem: a concrete incremental
`DoNotFilter` round against unreadable memory keeps the address as a
marker. -/
theorem runSearch_inaccessible_becomes_kept_marker_witness :
    ({ m_value := 0
       m_value_state := SearchResultValueState.AddressNotAccessible
       m_address := 7 } : SearchResult Nat) ∈
      (RunSearch opsNat 1 c2Env
        { c2Session with
          m_filter_type := FilterType.DoNotFilter
          m_search_results := [{ m_value := 5
                                 m_value_state := SearchResultValueState.ValueFromPhysicalMemory
                                 m_address := 7 }] }).2.m_search_results :=
  runSearch_inaccessible_becomes_kept_marker opsNat 1 c2Env _ (by decide) (by decide)
    { m_value := 5
      m_value_state := SearchResultValueState.ValueFromPhysicalMemory
      m_address := 7 } (by decide) rfl

/-- C3 — in every filter mode, a successful incremental `RunSearch`
produces a result list whose addresses form an in-order subsequence of
the previous round's addresses: no new address appears and the relative
order of the surviving addresses is preserved. -/
theorem runSearch_incremental_addresses_sublist {α : Type} [Inhabited α]
    (ops : ScalarOps α) (data_size : Nat) (env : Env α)
    (s : CheatSearchSession α) (hdone : s.m_first_search_done = true)
    (hsucc : (RunSearch ops data_size env s).1 = SearchErrorCode.Success) :
    ((RunSearch ops data_size env s).2.m_search_results.map
        SearchResult.m_address).Sublist
      (s.m_search_results.map SearchResult.m_address) := by
  obtain ⟨validator, hok⟩ :=
    runSearch_incremental_shape ops data_size env s hdone hsucc
  rw [nextSearch_ok_results _ _ _ _ _ hok]
  exact filterMap_map_sublist _ _ _ _
    (fun pr r h => nextSearchStep_address _ _ _ _ h)

/-- Witness for C3: a concrete incremental round over two previous
results, one surviving and one filtered out, yields addresses forming a
subsequence of the previous addresses. -/
theorem runSearch_incremental_addresses_sublist_witness :
    ((RunSearch opsNat 1
          { coreState := CoreState.Running, msrDR := true
            read := fun a _ => if a = 3 then some (5, false) else some (9, false) }
          { m_memory_ranges := [{ m_start := 0, m_length := 16 }]
            m_address_space := RequestedAddressSpace.Physical
            m_aligned := false
            m_compare_type := CompareType.Equal
            m_filter_type := FilterType.CompareAgainstSpecificValue
            m_value := some 5
            m_search_results := [{ m_value := 1
                                   m_value_state := SearchResultValueState.ValueFromPhysicalMemory
                                   m_address := 3 },
                                 { m_value := 2
                                   m_value_state := SearchResultValueState.ValueFromPhysicalMemory
                                   m_address := 4 }]
            m_first_search_done := true }).2.m_search_results.map
        SearchResult.m_address).Sublist
      ([{ m_value := 1
          m_value_state := SearchResultValueState.ValueFromPhysicalMemory
          m_address := 3 },
        { m_value := 2
          m_value_state := SearchResultValueState.ValueFromPhysicalMemory
          m_address := 4 }].map SearchResult.m_address) :=
  runSearch_incremental_addresses_sublist opsNat 1 _ _ (by decide) (by decide)

/-- C7 — `ClonePartial` over indices that are valid for the current
result list yields a new session sharing the memory-range, address-space
and alignment configuration, whose result list has exactly one entry per
requested index, in the given order, each equal (address, value and
value state) to the original result at that index.  The clone's result
list is a freshly built value, so (the embedding being pure) it is
independent of the original's. -/
theorem clonePartial_selects_indices {α : Type} [Inhabited α]
    (s : CheatSearchSession α) (result_indices : List Nat)
    (hvalid : ∀ i ∈ result_indices, i < s.m_search_results.length) :
    (ClonePartial s result_indices).m_memory_ranges = s.m_memory_ranges ∧
    (ClonePartial s result_indices).m_address_space = s.m_address_space ∧
    (ClonePartial s result_indices).m_aligned = s.m_aligned ∧
    (ClonePartial s result_indices).m_search_results.length =
      result_indices.length ∧
    ∀ k i, result_indices.get? k = some i →
      (ClonePartial s result_indices).m_search_results.get? k =
        s.m_search_results.get? i := by
  refine ⟨rfl, rfl, rfl, by simp [ClonePartial], ?_⟩
  intro k i hk
  have hi : i < s.m_search_results.length := hvalid i (List.get?_mem hk)
  simp only [ClonePartial, List.get?_map, hk, Option.map_some, List.get?_eq_get hi,
    List.get_eq_getElem]
  simp [List.getElem?_eq_getElem hi]

/-- Session used as the concrete input of C7's witness: three results at
addresses 10, 11, 12. -/
def c7Session : CheatSearchSession Nat :=
  { m_memory_ranges := [{ m_start := 10, m_length := 3 }]
    m_address_space := RequestedAddressSpace.Virtual
    m_aligned := true
    m_compare_type := CompareType.NotEqual
    m_filter_type := FilterType.CompareAgainstLastValue
    m_value := none
    m_search_results := [{ m_value := 100
                           m_value_state := SearchResultValueState.ValueFromVirtualMemory
                           m_address := 10 },
                         { m_value := 101
                           m_value_state := SearchResultValueState.ValueFromVirtualMemory
                           m_address := 11 },
                         { m_value := 102
                           m_value_state := SearchResultValueState.ValueFromPhysicalMemory
                           m_address := 12 }]
    m_first_search_done := true }

/-- Witness for C7: cloning indices [0, 2] out of the 3-result session
gives a 2-result session whose entries are the original's results 0 and
2 and whose configuration matches. -/
theorem clonePartial_selects_indices_witness :
    (ClonePartial c7Session [0, 2]).m_memory_ranges = c7Session.m_memory_ranges ∧
    (ClonePartial c7Session [0, 2]).m_search_results.length = 2 ∧
    (ClonePartial c7Session [0, 2]).m_search_results.get? 0 =
      c7Session.m_search_results.get? 0 ∧
    (ClonePartial c7Session [0, 2]).m_search_results.get? 1 =
      c7Session.m_search_results.get? 2 := by
  obtain ⟨h1, _h2, _h3, h4, h5⟩ :=
    clonePartial_selects_indices c7Session [0, 2] (by decide)
  exact ⟨h1, h4, h5 0 0 rfl, h5 1 2 rfl⟩

/-- Value of a little-endian byte list, used to relate the byte-swap
formulas to byte lists. -/
def ofLEBytes : List Nat → Nat
  | [] => 0
  | b :: bs => b + 256 * ofLEBytes bs

theorem toByteVector_succ (n x : Nat) :
    ToByteVector (n + 1) x = x % 256 :: ToByteVector n (x / 256) := by
  simp only [ToByteVector, List.range_succ_eq_map, List.map_cons, List.map_map,
    pow_zero, Nat.div_one, List.cons.injEq, true_and]
  refine List.map_congr_left (fun i _ => ?_)
  simp [Function.comp, pow_succ, Nat.div_div_eq_div_mul, mul_comm]

theorem toByteVector_ofLEBytes (l : List Nat) (h : ∀ b ∈ l, b < 256) :
    ToByteVector l.length (ofLEBytes l) = l := by
  induction l with
  | nil => rfl
  | cons b bs ih =>
    have hb : b < 256 := h b (List.mem_cons_self b bs)
    rw [List.length_cons, toByteVector_succ]
    have hmod : ofLEBytes (b :: bs) % 256 = b := by
      show (b + 256 * ofLEBytes bs) % 256 = b
      omega
    have hdiv : ofLEBytes (b :: bs) / 256 = ofLEBytes bs := by
      show (b + 256 * ofLEBytes bs) / 256 = ofLEBytes bs
      omega
    rw [hmod, hdiv, ih (fun x hx => h x (List.mem_cons_of_mem b hx))]

theorem bigEndianBytes_length (width v : Nat) :
    (bigEndianBytes width v).length = width := by
  simp [bigEndianBytes]

theorem bigEndianBytes_lt (width v : Nat) :
    ∀ b ∈ bigEndianBytes width v, b < 256 := by
  simp only [bigEndianBytes, List.mem_map]
  rintro b ⟨i, _, rfl⟩
  exact Nat.mod_lt _ (by norm_num)

theorem swap16_ofLEBytes (v : Nat) :
    swap16 v = ofLEBytes (bigEndianBytes 2 v) := by
  simp only [bigEndianBytes, swap16, List.range_succ, List.range_zero,
    List.map_append, List.map_cons, List.map_nil, List.nil_append, ofLEBytes]
  norm_num
  omega

theorem swap32_ofLEBytes (v : Nat) :
    swap32 v = ofLEBytes (bigEndianBytes 4 v) := by
  simp only [bigEndianBytes, swap32, List.range_succ, List.range_zero,
    List.map_append, List.map_cons, List.map_nil, List.nil_append, ofLEBytes]
  norm_num
  omega

theorem swap64_ofLEBytes (v : Nat) :
    swap64 v = ofLEBytes (bigEndianBytes 8 v) := by
  simp only [bigEndianBytes, swap64, List.range_succ, List.range_zero,
    List.map_append, List.map_cons, List.map_nil, List.nil_append, ofLEBytes]
  norm_num
  omega

theorem toByteVector_swap16 (v : Nat) :
    ToByteVector 2 (swap16 v) = bigEndianBytes 2 v := by
  rw [swap16_ofLEBytes]
  have h := toByteVector_ofLEBytes (bigEndianBytes 2 v) (bigEndianBytes_lt 2 v)
  rwa [bigEndianBytes_length] at h

theorem toByteVector_swap32 (v : Nat) :
    ToByteVector 4 (swap32 v) = bigEndianBytes 4 v := by
  rw [swap32_ofLEBytes]
  have h := toByteVector_ofLEBytes (bigEndianBytes 4 v) (bigEndianBytes_lt 4 v)
  rwa [bigEndianBytes_length] at h

theorem toByteVector_swap64 (v : Nat) :
    ToByteVector 8 (swap64 v) = bigEndianBytes 8 v := by
  rw [swap64_ofLEBytes]
  have h := toByteVector_ofLEBytes (bigEndianBytes 8 v) (bigEndianBytes_lt 8 v)
  rwa [bigEndianBytes_length] at h

theorem bitCastUnsigned_lt (width : Nat) (v : Int) :
    bitCastUnsigned width v < 2 ^ width := by
  unfold bitCastUnsigned
  have hpos : (0 : Int) < (2 ^ width : Nat) := by positivity
  have := Int.emod_lt_of_pos v hpos
  omega

/-- C6 — `GetValueAsByteVector` returns the big-endian byte encoding of
every typed literal: the unsigned kinds' values directly, the signed
kinds' two's-complement bit patterns, and the floating-point kinds' raw
IEEE754 bit patterns.  The transform is a pure function by construction. -/
theorem getValueAsByteVector_bigEndian :
    (∀ v : Nat, v < 2 ^ 8 →
      GetValueAsByteVector (SearchValue.U8 v) = bigEndianBytes 1 v) ∧
    (∀ v : Nat, GetValueAsByteVector (SearchValue.U16 v) = bigEndianBytes 2 v) ∧
    (∀ v : Nat, GetValueAsByteVector (SearchValue.U32 v) = bigEndianBytes 4 v) ∧
    (∀ v : Nat, GetValueAsByteVector (SearchValue.U64 v) = bigEndianBytes 8 v) ∧
    (∀ v : Int, GetValueAsByteVector (SearchValue.S8 v) =
      bigEndianBytes 1 (bitCastUnsigned 8 v)) ∧
    (∀ v : Int, GetValueAsByteVector (SearchValue.S16 v) =
      bigEndianBytes 2 (bitCastUnsigned 16 v)) ∧
    (∀ v : Int, GetValueAsByteVector (SearchValue.S32 v) =
      bigEndianBytes 4 (bitCastUnsigned 32 v)) ∧
    (∀ v : Int, GetValueAsByteVector (SearchValue.S64 v) =
      bigEndianBytes 8 (bitCastUnsigned 64 v)) ∧
    (∀ bits : Nat, GetValueAsByteVector (SearchValue.F32 bits) =
      bigEndianBytes 4 bits) ∧
    (∀ bits : Nat, GetValueAsByteVector (SearchValue.F64 bits) =
      bigEndianBytes 8 bits) := by
  refine ⟨fun v hv => ?_, fun v => toByteVector_swap16 v, fun v => toByteVector_swap32 v,
    fun v => toByteVector_swap64 v, fun v => ?_, fun v => toByteVector_swap16 _,
    fun v => toByteVector_swap32 _, fun v => toByteVector_swap64 _,
    fun bits => toByteVector_swap32 bits, fun bits => toByteVector_swap64 bits⟩
  · simp only [GetValueAsByteVector, bigEndianBytes, List.range_succ, List.range_zero,
      List.map_append, List.map_cons, List.map_nil, List.nil_append]
    norm_num
    omega
  · have hlt := bitCastUnsigned_lt 8 v
    simp only [GetValueAsByteVector, bigEndianBytes, List.range_succ, List.range_zero,
      List.map_append, List.map_cons, List.map_nil, List.nil_append]
    norm_num
    omega

/-- Witness for C6: the boundary examples of the spec — the U16 literal
`0x1234` serializes to the big-endian bytes `[0x12, 0x34]` and the S8
literal `-1` to `[0xFF]`. -/
theorem getValueAsByteVector_bigEndian_witness :
    GetValueAsByteVector (SearchValue.U16 0x1234) = [0x12, 0x34] ∧
    GetValueAsByteVector (SearchValue.S8 (-1)) = [0xFF] := by
  constructor
  · rw [getValueAsByteVector_bigEndian.2.1 0x1234]
    decide
  · rw [getValueAsByteVector_bigEndian.2.2.2.2.1 (-1)]
    decide

end Cheats

namespace Movie

/-- Movie state used as the concrete input of several witnesses: no
movie is active, one GameCube controller and one Wiimote enabled, a
three-byte input stream with the cursor at 1 and non-trivial counters. -/
def baseState : MovieState :=
  { s_bReadOnly := true
    s_rerecords := 3
    s_playMode := PlayMode.MODE_NONE
    s_controllers := [ControllerType.GC, ControllerType.None, ControllerType.None,
                      ControllerType.None]
    s_wiimotes := [true, false, false, false]
    s_padState := []
    s_temp_input := [10, 20, 30]
    s_currentByte := 1
    s_currentFrame := 4
    s_totalFrames := 9
    s_currentLagCount := 0
    s_totalLagCount := 1
    s_currentInputCount := 2
    s_totalInputCount := 6
    s_totalTickCount := 1000
    s_tickCountAtLastInput := 900
    s_recordingStartTime := 77
    s_bDiscChange := false
    s_bReset := false
    s_bRecordingFromSaveState := false
    s_bPolled := false }

/-- C9 — `EndPlayInput(false)` while a movie is active switches the mode
to None and zeroes the rerecord count and the byte cursor, while the
total-frame, total-input and total-tick bookkeeping and the buffered
input stream are all left unchanged. -/
theorem endPlayInput_false_while_active (s : MovieState)
    (hactive : s.s_playMode ≠ PlayMode.MODE_NONE) :
    (EndPlayInput false s).s_playMode = PlayMode.MODE_NONE ∧
    (EndPlayInput false s).s_rerecords = 0 ∧
    (EndPlayInput false s).s_currentByte = 0 ∧
    (EndPlayInput false s).s_totalFrames = s.s_totalFrames ∧
    (EndPlayInput false s).s_totalInputCount = s.s_totalInputCount ∧
    (EndPlayInput false s).s_totalTickCount = s.s_totalTickCount ∧
    (EndPlayInput false s).s_temp_input = s.s_temp_input := by
  simp [EndPlayInput, hactive]

/-- Witness for C9: ending playback from the concrete playing state. -/
theorem endPlayInput_false_while_active_witness :
    (EndPlayInput false { baseState with s_playMode := PlayMode.MODE_PLAYING }).s_playMode =
      PlayMode.MODE_NONE ∧
    (EndPlayInput false { baseState with s_playMode := PlayMode.MODE_PLAYING }).s_rerecords = 0 ∧
    (EndPlayInput false { baseState with s_playMode := PlayMode.MODE_PLAYING }).s_currentByte = 0 ∧
    (EndPlayInput false { baseState with s_playMode := PlayMode.MODE_PLAYING }).s_totalFrames =
      { baseState with s_playMode := PlayMode.MODE_PLAYING }.s_totalFrames ∧
    (EndPlayInput false { baseState with s_playMode := PlayMode.MODE_PLAYING }).s_totalInputCount =
      { baseState with s_playMode := PlayMode.MODE_PLAYING }.s_totalInputCount ∧
    (EndPlayInput false { baseState with s_playMode := PlayMode.MODE_PLAYING }).s_totalTickCount =
      { baseState with s_playMode := PlayMode.MODE_PLAYING }.s_totalTickCount ∧
    (EndPlayInput false { baseState with s_playMode := PlayMode.MODE_PLAYING }).s_temp_input =
      { baseState with s_playMode := PlayMode.MODE_PLAYING }.s_temp_input :=
  endPlayInput_false_while_active _ (by decide)

/-- C5 — during playback (`s_playMode = MODE_PLAYING`), `CheckInputEnd`
ends the movie exactly when the byte cursor has reached the end of the
buffered stream or when the emulated tick count exceeds the recorded
total and the movie did not begin from a save state; when it ends, the
engine switches to Recording if the read-only flag is clear and to None
otherwise, and when neither condition holds the state is untouched. -/
theorem checkInputEnd_ends_playback (ticks : Nat) (s : MovieState)
    (hplay : s.s_playMode = PlayMode.MODE_PLAYING) :
    ((s.s_currentByte ≥ s.s_temp_input.length ∨
        (ticks > s.s_totalTickCount ∧ s.s_bRecordingFromSaveState = false)) →
      (CheckInputEnd ticks s).s_playMode =
        (if s.s_bReadOnly then PlayMode.MODE_NONE else PlayMode.MODE_RECORDING)) ∧
    (¬(s.s_currentByte ≥ s.s_temp_input.length ∨
        (ticks > s.s_totalTickCount ∧ s.s_bRecordingFromSaveState = false)) →
      CheckInputEnd ticks s = s) := by
  constructor
  · intro hcond
    have hc : s.s_currentByte ≥ s.s_temp_input.length ∨
        (ticks > s.s_totalTickCount ∧ ¬IsRecordingInputFromSaveState s) := by
      simpa [IsRecordingInputFromSaveState] using hcond
    rw [CheckInputEnd, if_pos hc]
    cases hro : s.s_bReadOnly <;> simp [EndPlayInput, hro, hplay]
  · intro hcond
    have hc : ¬(s.s_currentByte ≥ s.s_temp_input.length ∨
        (ticks > s.s_totalTickCount ∧ ¬IsRecordingInputFromSaveState s)) := by
      simpa [IsRecordingInputFromSaveState] using hcond
    rw [CheckInputEnd, if_neg hc]

/-- Witness for C5: at 2000 ticks (past the 1000-tick total) in the
concrete read-only playing state, playback ends and the mode becomes
None. -/
theorem checkInputEnd_ends_playback_witness :
    (CheckInputEnd 2000 { baseState with s_playMode := PlayMode.MODE_PLAYING }).s_playMode =
      (if { baseState with s_playMode := PlayMode.MODE_PLAYING }.s_bReadOnly then
        PlayMode.MODE_NONE else PlayMode.MODE_RECORDING) :=
  (checkInputEnd_ends_playback 2000 _ (by decide)).1 (Or.inr (by decide))

/-- Header with an invalid magic signature, used by C8's witness. -/
def c8BadHeader : DtmHeader :=
  { filetype := [0x44, 0x54, 0x4D, 0x00]
    controllers := 1
    GBAControllers := 0
    bFromSaveState := false
    frameCount := 1
    lagCount := 0
    inputCount := 1
    numRerecords := 0
    recordingStartTime := 0
    tickCount := 100 }

/-- C8 — `PlayInput` fails with no state change whenever a movie is
already active, and likewise fails with no state change whenever the
loaded file's first four header bytes are not the magic signature
`'D' 'T' 'M' 0x1A` (including when the header cannot be read at all). -/
theorem playInput_rejects_active_or_bad_magic :
    (∀ (file : DtmFile) (sp : Bool) (s : MovieState),
        s.s_playMode ≠ PlayMode.MODE_NONE → PlayInput file sp s = (false, s)) ∧
    (∀ (file : DtmFile) (sp : Bool) (s : MovieState) (h : DtmHeader),
        file.headerQ = some h → IsMovieHeader h.filetype = false →
        PlayInput file sp s = (false, s)) ∧
    (∀ (file : DtmFile) (sp : Bool) (s : MovieState),
        file.headerQ = none → PlayInput file sp s = (false, s)) := by
  refine ⟨fun file sp s hact => by simp [PlayInput, hact], ?_, ?_⟩
  · intro file sp s h hh hm
    by_cases hact : s.s_playMode = PlayMode.MODE_NONE
    · simp [PlayInput, hact, hh, hm]
    · simp [PlayInput, hact]
  · intro file sp s hh
    by_cases hact : s.s_playMode = PlayMode.MODE_NONE
    · simp [PlayInput, hact, hh]
    · simp [PlayInput, hact]

/-- Witness for C8: a file whose magic's fourth byte is 0x00 instead of
0x1A is rejected with the engine state untouched. -/
theorem playInput_rejects_active_or_bad_magic_witness :
    PlayInput { headerQ := some c8BadHeader, stream := [1, 2, 3] } true baseState =
      (false, baseState) :=
  playInput_rejects_active_or_bad_magic.2.1 _ true baseState c8BadHeader rfl (by decide)

theorem listResize_length (l : List Nat) (n : Nat) :
    (listResize l n).length = n := by
  simp only [listResize, List.length_append, List.length_take, List.length_replicate]
  omega

theorem take_listResize (l : List Nat) {m n : Nat} (h : m ≤ n) :
    (listResize l n).take m = listResize l m := by
  simp only [listResize, List.take_append_eq_append_take, List.take_take,
    List.take_replicate, List.length_take]
  congr 1
  · congr 1
    omega
  · congr 1
    omega

theorem writeBytesAt_resize (l : List Nat) (c : Nat) (pad : List Nat) :
    writeBytesAt (listResize l (c + pad.length)) c pad = listResize l c ++ pad := by
  unfold writeBytesAt
  rw [take_listResize l (Nat.le_add_right c pad.length),
    List.drop_eq_nil_of_le (by rw [listResize_length]), List.append_nil]

/-- C10 — whenever `RecordInput` or `RecordWiimote` actually records
(Recording mode and the controller/Wiimote enabled), the input buffer is
resized to exactly the byte cursor plus the record's size before the
record is written, so afterwards the buffer is the old buffer truncated
(or zero-extended) to the old cursor followed by exactly the new record
(for a Wiimote, its length byte then its payload), and the byte cursor
equals the buffer's length; any bytes previously stored past the newly
written record are gone. -/
theorem record_resizes_buffer_to_cursor :
    (∀ (controllerID : Nat) (padBytes : List Nat) (s : MovieState),
        IsRecordingInput s = true → IsUsingPad s controllerID = true →
        (RecordInput controllerID padBytes s).s_temp_input =
          listResize s.s_temp_input s.s_currentByte ++ padBytes ∧
        (RecordInput controllerID padBytes s).s_currentByte =
          (RecordInput controllerID padBytes s).s_temp_input.length) ∧
    (∀ (wiimote : Nat) (data : List Nat) (ticks : Nat) (s : MovieState),
        IsRecordingInput s = true → IsUsingWiimote s wiimote = true →
        (RecordWiimote wiimote data ticks s).s_temp_input =
          listResize s.s_temp_input s.s_currentByte ++ [data.length] ++ data ∧
        (RecordWiimote wiimote data ticks s).s_currentByte =
          (RecordWiimote wiimote data ticks s).s_temp_input.length) := by
  constructor
  · intro controllerID padBytes s hrec hpad
    rw [RecordInput, if_neg (by simp [hrec, hpad])]
    refine ⟨?_, ?_⟩ <;>
      simp [CheckPadStatus, writeBytesAt_resize, listResize_length]
  · intro wiimote data ticks s hrec hwm
    rw [RecordWiimote, if_neg (by simp [hrec, hwm])]
    have hti : (InputUpdate ticks s).s_temp_input = s.s_temp_input := by
      rw [InputUpdate]
      split <;> rfl
    have hcb : (InputUpdate ticks s).s_currentByte = s.s_currentByte := by
      rw [InputUpdate]
      split <;> rfl
    simp only [hti, hcb]
    set c := s.s_currentByte with hc
    set t := s.s_temp_input with ht
    have hbuf1 : writeBytesAt (listResize t (c + data.length + 1)) c [data.length] =
        (listResize t c ++ [data.length]) ++
          (listResize t (c + data.length + 1)).drop (c + 1) := by
      unfold writeBytesAt
      rw [take_listResize t (by omega)]
      simp [listResize]
    have hlen1 : ((listResize t c ++ [data.length]) ++
        (listResize t (c + data.length + 1)).drop (c + 1)).length =
          c + 1 + data.length := by
      simp [listResize_length]
      omega
    have hbuf2 : writeBytesAt ((listResize t c ++ [data.length]) ++
        (listResize t (c + data.length + 1)).drop (c + 1)) (c + 1) data =
          listResize t c ++ [data.length] ++ data := by
      unfold writeBytesAt
      rw [List.take_left' (by simp [listResize_length]),
        List.drop_eq_nil_of_le (by rw [hlen1]), List.append_nil]
    refine ⟨?_, ?_⟩ <;> simp only [hbuf1, hbuf2] <;>
      simp [listResize_length] <;> omega

/-- Witness for C10: recording a two-byte pad snapshot and a two-byte
Wiimote report from the concrete recording state whose three-byte buffer
extends past the cursor at 1; in both cases the tail of the old buffer
is truncated and the cursor lands exactly at the new buffer end. -/
theorem record_resizes_buffer_to_cursor_witness :
    (RecordInput 0 [55, 66] { baseState with s_playMode := PlayMode.MODE_RECORDING
      }).s_temp_input = [10, 55, 66] ∧
    (RecordInput 0 [55, 66] { baseState with s_playMode := PlayMode.MODE_RECORDING
      }).s_currentByte = 3 ∧
    (RecordWiimote 0 [7, 8] 950 { baseState with s_playMode := PlayMode.MODE_RECORDING
      }).s_temp_input = [10, 2, 7, 8] ∧
    (RecordWiimote 0 [7, 8] 950 { baseState with s_playMode := PlayMode.MODE_RECORDING
      }).s_currentByte = 4 := by
  have h1 := record_resizes_buffer_to_cursor.1 0 [55, 66]
    { baseState with s_playMode := PlayMode.MODE_RECORDING } (by decide) (by decide)
  have h2 := record_resizes_buffer_to_cursor.2 0 [7, 8] 950
    { baseState with s_playMode := PlayMode.MODE_RECORDING } (by decide) (by decide)
  refine ⟨?_, ?_, ?_, ?_⟩
  · rw [h1.1]; decide
  · rw [h1.2, h1.1]; decide
  · rw [h2.1]; decide
  · rw [h2.2, h2.1]; decide

end Movie
